import Mathlib

/-!
Verification development for the XEP utility module (xeputils/xep.py).

The Python module parses XMPP extension protocol documents (XEPs) from a
fixed XML schema, extracts metadata fields, patches the raw source text in
place, walks git history to revert interim documents, and orchestrates
HTML/PDF builds.

This file gives a shallow embedding of that module:
  - XML documents are modelled post-parse as a tree type XNode; the external
    expat parser (xml.dom.minidom.parseString) is treated as an opaque
    collaborator producing such trees.
  - Machine integers are Lean Int/Nat (Python integers are unbounded).
  - Python exceptions are modelled with Except: code that can raise returns
    Except PyErr, and a try/except block is a match on that result.
  - External processes (git, the XSLT builders) are opaque collaborators,
    modelled as environment records of their observable results.
-/

namespace XepUtils

/-- A date, as produced by datetime.datetime.strptime with format Y-m-d.
Only the date components matter to this module. -/
structure Date where
  year : Nat
  month : Nat
  day : Nat
deriving DecidableEq, Repr

/-- Python exceptions that the module can raise. -/
inductive PyErr where
  /-- IndexError from indexing an empty or too-short list. -/
  | indexError (ctx : String)
  /-- KeyError from a missing attribute key in a minidom attribute map. -/
  | keyError (ctx : String)
  /-- AttributeError from reading an object attribute that is not yet set. -/
  | attributeError (ctx : String)
  /-- ExpatError from xml.dom.minidom.parseString on malformed XML. -/
  | expatError
deriving DecidableEq, Repr

/-- A parsed XML tree node: an element with a tag, attributes and children,
or a text node.  This is the post-parse view of xml.dom.minidom. -/
inductive XNode where
  | elem (tag : String) (attrs : List (String × String)) (children : List XNode)
  | text (data : String)
deriving Repr

/-- Children of a node (text nodes have none). -/
def XNode.children : XNode → List XNode
  | .elem _ _ c => c
  | .text _ => []

/-- Attribute list of a node (text nodes have none). -/
def XNode.attrs : XNode → List (String × String)
  | .elem _ a _ => a
  | .text _ => []

mutual
/-- All elements with the given tag in the subtree rooted at a node, the
node itself included when it matches: document (pre-)order.  This is the
traversal performed by minidom getElementsByTagName, except that minidom
starts at the children; see getElems below. -/
def collect (tag : String) : XNode → List XNode
  | .text _ => []
  | .elem t a c =>
    (if t == tag then [XNode.elem t a c] else []) ++ collectList tag c

/-- Document-order collection over a list of sibling nodes. -/
def collectList (tag : String) : List XNode → List XNode
  | [] => []
  | n :: ns => collect tag n ++ collectList tag ns
end

/-- Model of node.getElementsByTagName(tag): matching descendants of the
node, in document order, the node itself excluded. -/
def getElems (n : XNode) (tag : String) : List XNode :=
  collectList tag n.children

/-- Model of XEP.__getText__: concatenates the data of all direct text-node
children, in order. -/
def getText (nodelist : List XNode) : String :=
  nodelist.foldl (fun acc n => match n with | .text d => acc ++ d | _ => acc) ""

/-- Digit characters for the decimal printer. -/
def digitChar : Nat → Char
  | 0 => '0' | 1 => '1' | 2 => '2' | 3 => '3' | 4 => '4'
  | 5 => '5' | 6 => '6' | 7 => '7' | 8 => '8' | 9 => '9'
  | _ => '?'

/-- Big-endian decimal digits of a positive natural, accumulator form with
a step budget so that the definition is structural and kernel-reducible. -/
def natDecimalAux : Nat → Nat → List Char → List Char
  | 0, _, acc => acc
  | fuel + 1, n, acc =>
    if n = 0 then acc else natDecimalAux fuel (n / 10) (digitChar (n % 10) :: acc)

/-- Model of the decimal rendering of a natural number, as Python str.
The budget of 40 steps is exact for every number below 10 to the 40, far
beyond any XEP number. -/
def natDecimal (n : Nat) : List Char :=
  if n = 0 then ['0'] else natDecimalAux 40 n []

/-- Model of Python str(int): sign followed by decimal digits. -/
def intDecimal (k : Int) : List Char :=
  if k < 0 then '-' :: natDecimal k.natAbs else natDecimal k.toNat

/-- Model of the format spec 0-fill align-right width 4 of Python, applied
in readXEP as a 4-digit zero padding of the XEP number. -/
def zfill4 (s : String) : String :=
  ⟨List.replicate (4 - s.data.length) '0' ++ s.data⟩

/-- Split a character list on a single separator character, with the
semantics of Python str.split(sep): the empty list yields one empty group,
and every separator occurrence opens a new group. -/
def splitCh (sep : Char) : List Char → List (List Char)
  | [] => [[]]
  | c :: cs =>
    if c = sep then [] :: splitCh sep cs
    else
      match splitCh sep cs with
      | [] => [[c]]
      | g :: gs => (c :: g) :: gs

/-- String wrapper for splitCh: the model of s.split(sep) for a one
character separator (the only separators this module splits on). -/
def pySplit (s : String) (sep : Char) : List String :=
  (splitCh sep s.data).map String.mk

/-- Python default whitespace test for str.strip. -/
def isSpaceCh (c : Char) : Bool :=
  c = ' ' || c = '\t' || c = '\n' || c = '\r' || c = '\x0b' || c = '\x0c'

/-- Model of Python str.strip() on a character list. -/
def trimCh (l : List Char) : List Char :=
  ((l.dropWhile isSpaceCh).reverse.dropWhile isSpaceCh).reverse

/-- Join a list of strings with a separator (used by spec-side stems). -/
def joinWith (sep : String) : List String → String
  | [] => ""
  | [x] => x
  | x :: xs => x ++ sep ++ joinWith sep xs

/-- Index of the first occurrence of a pattern in a character list. -/
def findSub (pat : List Char) : List Char → Option Nat
  | [] => none
  | c :: cs =>
    if pat.isPrefixOf (c :: cs) then some 0 else (findSub pat cs).map (fun i => i + 1)

/-- ASCII decimal digit test, as used by Python int() on candidate digits. -/
def isDigitCh (c : Char) : Bool :=
  '0' ≤ c && c ≤ '9'

/-- Digit-list to value, for pyToInt. -/
def digitsVal (l : List Char) : Nat :=
  l.foldl (fun a c => a * 10 + (c.toNat - 48)) 0

/-- Model of Python int(str): optional surrounding whitespace, an optional
sign, then one or more decimal digits; none when the literal is invalid
(a ValueError in Python). -/
def pyToInt (s : String) : Option Int :=
  let t := trimCh s.data
  match t with
  | '-' :: rest =>
    if rest ≠ [] ∧ rest.all isDigitCh then some (-(digitsVal rest : Int)) else none
  | '+' :: rest =>
    if rest ≠ [] ∧ rest.all isDigitCh then some ((digitsVal rest : Int)) else none
  | _ =>
    if t ≠ [] ∧ t.all isDigitCh then some ((digitsVal t : Int)) else none

/-- Model of datetime.datetime.strptime(s, Y-m-d): three dash-separated
numeric components with month and day in calendar range.  The stdlib
parser is an external collaborator; this captures its behaviour on the
well-formed and clearly malformed inputs used in this development. -/
def parseDateYMD (s : String) : Option Date :=
  match splitCh '-' s.data with
  | [y, m, d] =>
    if y ≠ [] ∧ y.all isDigitCh ∧ m ≠ [] ∧ m.all isDigitCh ∧
       d ≠ [] ∧ d.all isDigitCh then
      let mv := digitsVal m
      let dv := digitsVal d
      if 1 ≤ mv ∧ mv ≤ 12 ∧ 1 ≤ dv ∧ dv ≤ 31 then
        some ⟨digitsVal y, mv, dv⟩
      else none
    else none
  | _ => none

/-- Last path component, as os.path.split(filename) second member for the
absolute normalized paths this module manipulates. -/
def fleOf (p : String) : String :=
  (pySplit p '/').getLastD ""

/-- Base name of the directory of the path: os.path.basename(self.path)
after self.path, fle = os.path.split(self.filename). -/
def parentBaseOf (p : String) : String :=
  ((pySplit p '/').dropLast).getLastD ""

/-- The XEP number attribute: an int, or a string for proto-XEPs, README
and unparseable literals (Python keeps the dynamic type of self.nr). -/
inductive NrVal where
  | int (k : Int)
  | str (s : String)
deriving DecidableEq, Repr

/-- Model of XEP.__str__: the filename when nrFormatted is falsy (the empty
string), else XEP- followed by nrFormatted. -/
def strForm (nrFormatted filename : String) : String :=
  if nrFormatted = "" then filename else "XEP-" ++ nrFormatted

/-- nrFormatted derivation at lines 167-170 of xep.py: zero-pad integer
numbers to width 4, pass string numbers through. -/
def fmtNr : NrVal → String
  | .int k => zfill4 ⟨intDecimal k⟩
  | .str s => s

/-- Message built by XEP.__processParsingError__.  The trailing part renders
sys.exc_info, which depends on the interpreter; it is abstracted to a fixed
placeholder, keeping the parts the module itself formats. -/
def parseErrorMsg (valuedescription selfStr filename : String) : String :=
  "Invalid value for " ++ valuedescription ++ " while parsing " ++ selfStr ++
    ", setting to a default.\n  XEP file: " ++ filename ++ "\n  Error: <exception>\n"

/-- Message built inline at lines 151-154 of xep.py for a proto-XEP whose
number element is not xxxx. -/
def protoErrMsg (nr filename : String) : String :=
  "Invalid value for XEP-number (" ++ nr ++ ") while parsing protoXEP.\n" ++
    "  XEP file: " ++ filename

/-- Lines 147-166 of xep.py: derivation of self.nr with its error recording.
prevFmt is the value of self.nrFormatted from a previous parse, none on the
first parse; __processParsingError__ calls str(self), which raises
AttributeError when nrFormatted was never set.  Returns the number value
and the parse-error entries this step appends. -/
def numberStep (nr fle pb filename : String) (prevFmt : Option String) :
    Except PyErr (NrVal × List String) :=
  if pb == "inbox" || fle == "xep-template.xml" then
    if !(nr == "xxxx" || nr == "XXXX") then
      .ok (.str (fle.dropRight 4), [protoErrMsg nr filename])
    else
      .ok (.str (fle.dropRight 4), [])
  else if nr == "xxxx" || nr == "XXXX" then
    .ok (.str (fle.dropRight 4), [])
  else if fle == "xep-README.xml" && nr == "README" then
    .ok (.str nr, [])
  else
    match pyToInt nr with
    | some k => .ok (.int k, [])
    | none =>
      match prevFmt with
      | none => .error (.attributeError "nrFormatted")
      | some pf => .ok (.str nr, [parseErrorMsg "XEP number" (strForm pf filename) filename])

/-- Lines 180-191 of xep.py: the optional lastcall element; on an
unparseable date the value is False (here none) and one error is recorded. -/
def lastcallStep (lcNode : Option XNode) (selfStr filename : String) :
    Option Date × List String :=
  match lcNode with
  | none => (none, [])
  | some n =>
    match parseDateYMD (getText n.children) with
    | some d => (some d, [])
    | none => (none, [parseErrorMsg "last call" selfStr filename])

/-- Lines 200-206 of xep.py: the revision date, defaulting to the current
date with one recorded error. -/
def dateStep (dateString : String) (now : Date) (selfStr filename : String) :
    Date × List String :=
  match parseDateYMD dateString with
  | some d => (d, [])
  | none => (now, [parseErrorMsg "date" selfStr filename])

/-- Lines 209-213 of xep.py: majorVersion from dot-component 0, defaulting
to 0 with one recorded error. -/
def majorStep (version selfStr filename : String) : Int × List String :=
  match pyToInt ((pySplit version '.').headD "") with
  | some k => (k, [])
  | none => (0, [parseErrorMsg "major version" selfStr filename])

/-- Lines 214-221 of xep.py: minorVersion from dot-component 1.  The
indexing itself is unguarded: a version string with no dot raises an
IndexError that the except ValueError clause does not catch.  On a
ValueError, an interim XEP keeps the raw component as a string; otherwise
the default is 0 and the recorded description is the literal
"major version" of line 221. -/
def minorStep (version : String) (interim : Bool) (selfStr filename : String) :
    Except PyErr (NrVal × List String) :=
  match (pySplit version '.').get? 1 with
  | none => .error (.indexError "version split")
  | some c =>
    match pyToInt c with
    | some k => .ok (.int k, [])
    | none =>
      if interim then .ok (.str c, [])
      else .ok (.int 0, [parseErrorMsg "major version" selfStr filename])

/-- Lines 230-233 of xep.py: the src attribute of every img element is read
unguarded; a missing key raises KeyError. -/
def getImages : List XNode → Except PyErr (List String)
  | [] => .ok []
  | n :: ns =>
    match n.attrs.lookup "src" with
    | none => .error (.keyError "src")
    | some v =>
      match getImages ns with
      | .error e => .error e
      | .ok vs => .ok (v :: vs)

/-- The parse-derived state of an XEP object: every attribute that
XEP.readXEP assigns. -/
structure XEPRec where
  title : String
  nr : NrVal
  nrFormatted : String
  shortname : Option String
  abstract : String
  status : String
  lastcall : Option Date
  type : String
  interim : Bool
  date : Date
  version : String
  majorVersion : Int
  minorVersion : NrVal
  depends : List String
  images : List String
  parseErrors : List String
deriving DecidableEq, Repr

/-- Model of XEP.readXEP (lines 136-233 of xep.py), over the already parsed
document tree.  Arguments: the tree root, the file name, the current date
(for the revision-date fallback), the previous value of nrFormatted (none
on a first parse) and the parse-error list accumulated so far (readXEP only
ever appends to self.parseErrors).  Each unguarded [0] indexing of a
getElementsByTagName result is an IndexError when the list is empty. -/
def readXEP (root : XNode) (filename : String) (now : Date)
    (prevFmt : Option String) (errs0 : List String) : Except PyErr XEPRec :=
  match (collect "xep" root).head? with
  | none => .error (.indexError "xep")
  | some xepNode =>
  match (getElems xepNode "header").head? with
  | none => .error (.indexError "header")
  | some headerNode =>
  match (getElems headerNode "title").head? with
  | none => .error (.indexError "title")
  | some titleNode =>
  let title := getText titleNode.children
  match (getElems headerNode "number").head? with
  | none => .error (.indexError "number")
  | some numberNode =>
  let nr := getText numberNode.children
  let fle := fleOf filename
  match numberStep nr fle (parentBaseOf filename) filename prevFmt with
  | .error e => .error e
  | .ok np =>
  let nrFormatted := fmtNr np.1
  let selfStr := strForm nrFormatted filename
  let shortname := ((getElems headerNode "shortname").head?).map
    (fun n => getText n.children)
  match (getElems headerNode "abstract").head? with
  | none => .error (.indexError "abstract")
  | some abstractNode =>
  let abstract := getText abstractNode.children
  match (getElems headerNode "status").head? with
  | none => .error (.indexError "status")
  | some statusNode =>
  let status := getText statusNode.children
  let lc := lastcallStep ((getElems headerNode "lastcall").head?) selfStr filename
  match (getElems headerNode "type").head? with
  | none => .error (.indexError "type")
  | some typeNode =>
  let typ := getText typeNode.children
  let interim := !(getElems headerNode "interim").isEmpty
  match (getElems headerNode "revision").head? with
  | none => .error (.indexError "revision")
  | some revNode =>
  match (getElems revNode "date").head? with
  | none => .error (.indexError "revision date")
  | some dateNode =>
  let dt := dateStep (getText dateNode.children) now selfStr filename
  match (getElems revNode "version").head? with
  | none => .error (.indexError "version")
  | some versionNode =>
  let version := getText versionNode.children
  let mj := majorStep version selfStr filename
  match minorStep version interim selfStr filename with
  | .error e => .error e
  | .ok mn =>
  let depends :=
    match (getElems headerNode "dependencies").head? with
    | none => []
    | some depNode => (getElems depNode "spec").map (fun n => getText n.children)
  match getImages (getElems xepNode "img") with
  | .error e => .error e
  | .ok images =>
  .ok { title := title, nr := np.1, nrFormatted := nrFormatted,
        shortname := shortname, abstract := abstract, status := status,
        lastcall := lc.1, type := typ, interim := interim, date := dt.1,
        version := version, majorVersion := mj.1, minorVersion := mn.1,
        depends := depends, images := images,
        parseErrors := errs0 ++ np.2 ++ lc.2 ++ dt.2 ++ mj.2 ++ mn.2 }

/-- Lexicographic order on code-point lists: the model of the Python string
less-than used by XEP.__lt__. -/
def listLt : List Char → List Char → Bool
  | _, [] => false
  | [], _ :: _ => true
  | a :: as, b :: bs =>
    if a.toNat < b.toNat then true
    else if b.toNat < a.toNat then false
    else listLt as bs

/-- Python string less-than on the underlying character sequences. -/
def pyStrLt (s t : String) : Bool :=
  listLt s.data t.data

/-- The object-level state of an XEP instance that the orchestration code
manipulates: the parse-derived fields, the raw text, the file name, the git
toplevel (None when the file is not in a git work tree) and the build-error
list. -/
structure XEPState where
  xrec : XEPRec
  raw : String
  filename : String
  gittoplevel : Option String
  buildErrors : List String
deriving DecidableEq, Repr

/-- Model of XEP.__str__ applied to an object state. -/
def xepStr (st : XEPState) : String :=
  strForm st.xrec.nrFormatted st.filename

/-- Model of XEP.__lt__ (lines 249-253 of xep.py): compare the __str__
forms with the Python string less-than. -/
def xepLt (a b : XEPState) : Bool :=
  pyStrLt (xepStr a) (xepStr b)

/-! ### In-place text patcher (XEP.replaceElementText, lines 273-293)

The Python code runs re.sub(pattern, replacement, xepText, count=1) with
pattern <name>[a-zA-Z0-9]*</name>.  Because the character after a maximal
alphanumeric run is never alphanumeric while the closing tag starts with
the non-alphanumeric <, the regex matches at a position exactly when the
literal open tag is followed by a maximal alphanumeric run followed by the
literal close tag; backtracking the star can never produce a match that
the maximal run misses.  re.sub with count=1 rewrites the leftmost match.
The model below scans positions left to right and rewrites the first
position where that maximal-run match succeeds. -/

/-- Alphanumeric ASCII test: the character class a-zA-Z0-9 of the pattern. -/
def isAlnumAscii (c : Char) : Bool :=
  ('a' ≤ c && c ≤ 'z') || ('A' ≤ c && c ≤ 'Z') || ('0' ≤ c && c ≤ '9')

/-- Match of the pattern open ++ [a-zA-Z0-9]* ++ close at the head of l:
some rest on success, where rest is what follows the match. -/
def matchAt (openTag closeTag l : List Char) : Option (List Char) :=
  if openTag.isPrefixOf l then
    let l1 := l.drop openTag.length
    let rest := l1.dropWhile isAlnumAscii
    if closeTag.isPrefixOf rest then some (rest.drop closeTag.length) else none
  else none

/-- Leftmost-match single substitution: the model of
re.sub(pattern, repl, text, count=1) for this pattern shape. -/
def subFirst (openTag closeTag repl : List Char) : List Char → List Char
  | [] => []
  | c :: cs =>
    match matchAt openTag closeTag (c :: cs) with
    | some rest => repl ++ rest
    | none => c :: subFirst openTag closeTag repl cs

/-- The pure text transformation of XEP.replaceElementText: the file
content before and after the in-place rewrite. -/
def replaceElementText (elementname text xepText : String) : String :=
  let openTag := ("<" ++ elementname ++ ">").data
  let closeTag := ("</" ++ elementname ++ ">").data
  let repl := ("<" ++ elementname ++ ">" ++ text ++ "</" ++ elementname ++ ">").data
  ⟨subFirst openTag closeTag repl xepText.data⟩

/-! ### Revision history resolver (XEP.revertInterim, lines 410-449) -/

/-- Observable results of the git collaborator used by revertInterim:
the log invocation (stderr error or stdout commit list, newline separated,
newest first) and the show invocation per commit id. -/
structure VcsEnv where
  logRes : Except String String
  showRes : String → Except String String

/-- Warning recorded at lines 417-418; the Python source builds this string
without calling format, so the placeholder stays literally in the message. -/
def notGitWarn : String :=
  "WARNING: {0} is not in a git repository, will be using interim XEPs"

/-- Warning recorded at lines 428-429 when git log fails. -/
def logWarn (selfStr err : String) : String :=
  "WARNING: error reading git log, not reversing interim XEP " ++ selfStr ++ ": " ++ err

/-- Warning recorded at lines 443-444 when git show fails. -/
def blobWarn (selfStr err : String) : String :=
  "WARNING: error reading git blob, not reversing interim XEP " ++ selfStr ++ ": " ++ err

/-- Lines 447-448: self.raw = out, then self.readXEP().  The external expat
parser is the parseS collaborator; a parse failure of the blob is the
ExpatError that parseString would raise. -/
def reparseState (parseS : String → Option XNode) (now : Date)
    (st : XEPState) (out : String) : Except PyErr XEPState :=
  match parseS out with
  | none => .error .expatError
  | some root =>
    match readXEP root st.filename now (some st.xrec.nrFormatted) st.xrec.parseErrors with
    | .error e => .error e
    | .ok r => .ok { st with raw := out, xrec := r }

/-- The while-loop of lines 434-449, in structural form on the suffix of
the commit list that remains to be visited: as long as the state is
interim, fetch the blob of the next commit, re-parse it into the record
and advance.  The Python indexing commits[commitIndex] is unguarded, so an
exhausted commit list with the document still interim is the IndexError of
running past the end of the log.  A git show failure appends one warning
and returns. -/
def revertLoop (env : VcsEnv) (parseS : String → Option XNode) (now : Date) :
    List String → XEPState → Except PyErr XEPState
  | [], st =>
    if st.xrec.interim then .error (.indexError "commits") else .ok st
  | cid :: rest, st =>
    if st.xrec.interim then
      match env.showRes cid with
      | .error e =>
        .ok { st with buildErrors := st.buildErrors ++ [blobWarn (xepStr st) e] }
      | .ok out =>
        match reparseState parseS now st out with
        | .error pe => .error pe
        | .ok st1 => revertLoop env parseS now rest st1
    else .ok st

/-- Model of XEP.revertInterim (lines 410-449). -/
def revertInterim (env : VcsEnv) (parseS : String → Option XNode) (now : Date)
    (st : XEPState) : Except PyErr XEPState :=
  if st.xrec.interim then
    match st.gittoplevel with
    | none => .ok { st with buildErrors := st.buildErrors ++ [notGitWarn] }
    | some _ =>
      match env.logRes with
      | .error e =>
        .ok { st with buildErrors := st.buildErrors ++ [logWarn (xepStr st) e] }
      | .ok out => revertLoop env parseS now ((pySplit out '\n').drop 1) st
  else .ok st

/-! ### Defer workflow (XEP.defer, lines 329-348) -/

/-- The externally visible build steps that defer triggers, in order. -/
inductive DeferStep where
  | markDeferred
  | renderHTML
  | renderPDF
  | archiveStep
  | commit (message : String)
deriving DecidableEq, Repr

/-- Model of XEP.isGitClean (lines 367-386): a git status error appends one
warning and counts as not clean; any status output counts as not clean;
empty output is clean.  Returns the cleanliness and the appended warnings. -/
def isGitCleanModel (statusRes : Except String String) (selfStr : String) :
    Bool × List String :=
  match statusRes with
  | .error e => (false, ["WARNING: error reading git status: " ++ selfStr ++ ": " ++ e])
  | .ok out => (out == "", [])

/-- Model of XEP.defer (lines 329-348) at the orchestration level: the
renderers, the patcher and the archiver are opaque collaborators, recorded
as emitted steps.  selfStrPre is str(self) before the deferred patch and
re-parse, selfStrPost after (the commit message uses the latter).  Returns
the warnings appended to buildErrors and the emitted step sequence. -/
def deferModel (gittoplevel : Option String) (statusRes : Except String String)
    (selfStrPre selfStrPost : String) : List String × List DeferStep :=
  let preamble : Bool × List String :=
    match gittoplevel with
    | none =>
      (false, ["WARNING: " ++ selfStrPre ++
        " is not in a git repository, will not commit change to deferred."])
    | some _ =>
      let cl := isGitCleanModel statusRes selfStrPre
      if cl.1 then (true, cl.2)
      else (false, cl.2 ++ ["WARNING: " ++ selfStrPre ++
        " has uncommitted changes, will not commit change to deferred."])
  (preamble.2,
    [.markDeferred, .renderHTML, .renderPDF, .archiveStep] ++
      (if preamble.1 then [DeferStep.commit ("Deferring " ++ selfStrPost)] else []))

/-! ### Definitions modelled from the specification text

These second definitions follow the wording of the specification and are
compared against the source-derived definitions above in the refinement
theorems; they are deliberately written from the words of spec.md, not
from xep.py. -/

/-- Modelled from the spec: dependencies are the text contents of the spec
entries under the dependencies block of the document header, in document
order; the empty sequence when the block is absent. -/
def specDependencies (root : XNode) : List String :=
  match (collect "xep" root).head? with
  | none => []
  | some xepNode =>
  match (getElems xepNode "header").head? with
  | none => []
  | some headerNode =>
  match (getElems headerNode "dependencies").head? with
  | none => []
  | some depNode => (getElems depNode "spec").map (fun n => getText n.children)

/-- Modelled from the spec: the filename stem, the file name minus its
extension (the part from the last dot onward). -/
def specStem (fle : String) : String :=
  let parts := pySplit fle '.'
  if parts.length ≤ 1 then fle else joinWith "." parts.dropLast

/-- Modelled from the spec: majorVersion is the integer value of
dot-component 0 of the version string, default 0 on failure. -/
def specMajor (version : String) : Int :=
  match pyToInt ((pySplit version '.').headD "") with
  | some k => k
  | none => 0

/-- Modelled from the spec: minorVersion from dot-component 1 of the
version string; the integer value if numeric, the raw string component if
non-numeric on an interim document, otherwise 0. -/
def specMinor (version : String) (interim : Bool) : NrVal :=
  match (pySplit version '.').get? 1 with
  | none => .int 0
  | some c =>
    match pyToInt c with
    | some k => .int k
    | none => if interim then .str c else .int 0

/-- Modelled from the spec: lastCallDate is absent when no lastcall element
exists and on an unparseable date, else the parsed date. -/
def specLastcall (lcText : Option String) : Option Date :=
  match lcText with
  | none => none
  | some s => parseDateYMD s

/-- Modelled from the spec: revisionDate is the parsed revision date, the
current date on failure. -/
def specDate (dateString : String) (now : Date) : Date :=
  (parseDateYMD dateString).getD now

/-- Modelled from the spec: replace the text content of the first
occurrence of the named element in the raw text, delimited by the literal
open tag and the next literal close tag. -/
def specReplaceFirst (elementname text xepText : String) : String :=
  let openT := ("<" ++ elementname ++ ">").data
  let closeT := ("</" ++ elementname ++ ">").data
  let l := xepText.data
  match findSub openT l with
  | none => xepText
  | some i =>
    let afterOpen := l.drop (i + openT.length)
    match findSub closeT afterOpen with
    | none => xepText
    | some j =>
      ⟨l.take i ++ openT ++ text.data ++ closeT ++ afterOpen.drop (j + closeT.length)⟩

/-- Modelled from the spec: diagnostics recorded while deriving the
number (1 on a proto document whose number is not xxxx, 1 on a failed
integer parse elsewhere, 0 otherwise). -/
def specNumberFails (nr fle pb : String) : Nat :=
  (if (pb == "inbox" || fle == "xep-template.xml") &&
      !(nr == "xxxx" || nr == "XXXX") then 1 else 0) +
  (if !(pb == "inbox" || fle == "xep-template.xml") &&
      !(nr == "xxxx" || nr == "XXXX") &&
      !(fle == "xep-README.xml" && nr == "README") &&
      (pyToInt nr).isNone then 1 else 0)

/-- Modelled from the spec: one diagnostic when a present lastcall element
has an unparseable date. -/
def specLastcallFails (lcText : Option String) : Nat :=
  match lcText with
  | none => 0
  | some s => if (parseDateYMD s).isNone then 1 else 0

/-- Modelled from the spec: one diagnostic when the revision date is
unparseable. -/
def specDateFails (dateString : String) : Nat :=
  if (parseDateYMD dateString).isNone then 1 else 0

/-- Modelled from the spec: one diagnostic when dot-component 0 of the
version is non-numeric. -/
def specMajorFails (version : String) : Nat :=
  if (pyToInt ((pySplit version '.').headD "")).isNone then 1 else 0

/-- Modelled from the spec: one diagnostic when dot-component 1 of the
version is non-numeric on a non-interim document. -/
def specMinorFails (version : String) (interim : Bool) : Nat :=
  if (pyToInt (((pySplit version '.').get? 1).getD "")).isNone && !interim
  then 1 else 0

/-- Modelled from the spec: the count of field-parse failures that must
each append exactly one diagnostic, per the field derivation rules of the
spec (number on a proto document, number integer parse, last call date,
revision date, major version, minor version on a non-interim document). -/
def specFailCount (nr fle pb : String) (lcText : Option String)
    (dateString version : String) (interim : Bool) : Nat :=
  specNumberFails nr fle pb + specLastcallFails lcText + specDateFails dateString +
    specMajorFails version + specMinorFails version interim

/-- Decidable equality for Except results, used to evaluate the model on
concrete inputs. -/
instance {ε α : Type} [DecidableEq ε] [DecidableEq α] : DecidableEq (Except ε α) :=
  fun a b =>
    match a, b with
    | .error e1, .error e2 => decidable_of_iff (e1 = e2) (by simp)
    | .ok r1, .ok r2 => decidable_of_iff (r1 = r2) (by simp)
    | .error _, .ok _ => isFalse (by simp)
    | .ok _, .error _ => isFalse (by simp)

/-- The record readXEP builds on a successful parse, in terms of the
located nodes and per-step results; see readXEP_ok_elim and
readXEP_ok_intro below. -/
def builtRec (fn : String) (now : Date) (errs0 : List String)
    (xepN hdr titleN absN stN tyN revN dateN verN : XNode)
    (np mn : NrVal × List String) (imgs : List String) : XEPRec :=
  { title := getText titleN.children, nr := np.1, nrFormatted := fmtNr np.1,
    shortname := ((getElems hdr "shortname").head?).map (fun n => getText n.children),
    abstract := getText absN.children, status := getText stN.children,
    lastcall := (lastcallStep ((getElems hdr "lastcall").head?) (strForm (fmtNr np.1) fn) fn).1,
    type := getText tyN.children,
    interim := !(getElems hdr "interim").isEmpty,
    date := (dateStep (getText dateN.children) now (strForm (fmtNr np.1) fn) fn).1,
    version := getText verN.children,
    majorVersion := (majorStep (getText verN.children) (strForm (fmtNr np.1) fn) fn).1,
    minorVersion := mn.1,
    depends := (match (getElems hdr "dependencies").head? with
      | none => []
      | some depNode => (getElems depNode "spec").map (fun n => getText n.children)),
    images := imgs,
    parseErrors := errs0 ++ np.2 ++
      (lastcallStep ((getElems hdr "lastcall").head?) (strForm (fmtNr np.1) fn) fn).2 ++
      (dateStep (getText dateN.children) now (strForm (fmtNr np.1) fn) fn).2 ++
      (majorStep (getText verN.children) (strForm (fmtNr np.1) fn) fn).2 ++ mn.2 }

/-! ### Concrete documents and environments

These are used to evaluate the model on explicit inputs in the witnesses
and counterexamples. -/

/-- An element with a single text child. -/
def textEl (tag s : String) : XNode := .elem tag [] [.text s]

/-- Header of the well-formed sample document. -/
def doc1Header : XNode := .elem "header" [] [
  textEl "number" "1",
  textEl "title" "Example",
  textEl "abstract" "An abstract",
  textEl "status" "Active",
  textEl "type" "Standards Track",
  .elem "dependencies" [] [textEl "spec" "A", textEl "spec" "B"],
  .elem "revision" [] [textEl "date" "2014-01-02", textEl "version" "1.0"]
]

/-- A well-formed sample document: number 1, version 1.0, two
dependencies, no images. -/
def doc1 : XNode := .elem "xep" [] [doc1Header]

/-- Header with a version string that has no dot separator. -/
def docNoDotHeader : XNode := .elem "header" [] [
  textEl "number" "1",
  textEl "title" "Example",
  textEl "abstract" "An abstract",
  textEl "status" "Active",
  textEl "type" "Standards Track",
  .elem "revision" [] [textEl "date" "2014-01-02", textEl "version" "1"]
]

/-- A document whose version string has no dot separator. -/
def docNoDot : XNode := .elem "xep" [] [docNoDotHeader]

/-- Header with a non-numeric minor version and no interim marker. -/
def docMinorXHeader : XNode := .elem "header" [] [
  textEl "number" "1",
  textEl "title" "Example",
  textEl "abstract" "An abstract",
  textEl "status" "Active",
  textEl "type" "Standards Track",
  .elem "revision" [] [textEl "date" "2014-01-02", textEl "version" "1.x"]
]

/-- A non-interim document whose minor version component is non-numeric. -/
def docMinorX : XNode := .elem "xep" [] [docMinorXHeader]

/-- Header with a numeric number element, for the inbox counterexample. -/
def docInboxHeader : XNode := .elem "header" [] [
  textEl "number" "1234",
  textEl "title" "Example",
  textEl "abstract" "An abstract",
  textEl "status" "Active",
  textEl "type" "Standards Track",
  .elem "revision" [] [textEl "date" "2014-01-02", textEl "version" "1.0"]
]

/-- A document with the number element 1234, parsed from an inbox path in
the counterexample. -/
def docInbox : XNode := .elem "xep" [] [docInboxHeader]

/-- A document with two img elements that both carry a src attribute. -/
def docImgs : XNode := .elem "xep" [] [doc1Header,
  .elem "img" [("src", "u1.png")] [],
  .elem "img" [("alt", "x"), ("src", "u2.png")] []]

/-- A document with an img element that has no src attribute. -/
def docBadImg : XNode := .elem "xep" [] [doc1Header,
  .elem "img" [("src", "u1.png")] [],
  .elem "img" [("alt", "x")] []]

/-- An interim revision of the sample document (interim marker present). -/
def docInterim : XNode := .elem "xep" [] [.elem "header" [] [
  textEl "number" "1",
  textEl "title" "Example",
  textEl "abstract" "An abstract",
  textEl "status" "Active",
  textEl "type" "Standards Track",
  .elem "interim" [] [],
  .elem "revision" [] [textEl "date" "2014-01-02", textEl "version" "0.1"]
]]

/-- A non-interim revision of the sample document. -/
def docNonInterim : XNode := doc1

/-- Parser collaborator for the history-walk witnesses: two known blobs. -/
def parseS4 (s : String) : Option XNode :=
  if s = "rawA" then some docInterim
  else if s = "rawB" then some docNonInterim
  else none

/-- Git collaborator for the history-walk witness: a three-commit log,
newest first; commit c1 holds the interim blob, commit c2 the non-interim
one; commit c0 (the working copy) deliberately fails if ever fetched. -/
def cenv4 : VcsEnv :=
  { logRes := .ok "c0\nc1\nc2",
    showRes := fun cid =>
      if cid = "c1" then .ok "rawA"
      else if cid = "c2" then .ok "rawB"
      else .error "unexpected fetch" }

/-- Git collaborator whose log holds a single commit, every blob interim:
the walk starts at index 1 and immediately runs past the end of the log. -/
def cenvExhaust : VcsEnv :=
  { logRes := .ok "c0",
    showRes := fun _ => .ok "rawA" }

/-- Parse-derived record of the interim working copy used as the starting
state of the history-walk witnesses. -/
def recInterim : XEPRec :=
  { title := "Example", nr := .int 1, nrFormatted := "0001", shortname := none,
    abstract := "An abstract", status := "Active", lastcall := none,
    type := "Standards Track", interim := true, date := ⟨2014, 1, 2⟩,
    version := "0.1", majorVersion := 0, minorVersion := .int 1,
    depends := [], images := [], parseErrors := [] }

/-- Starting object state of the history-walk witnesses. -/
def st0 : XEPState :=
  { xrec := recInterim, raw := "raw0", filename := "/repo/xep-0001.xml",
    gittoplevel := some "/repo", buildErrors := [] }

/-- Record parsed from the interim blob rawA. -/
def rec1 : XEPRec :=
  { title := "Example", nr := .int 1, nrFormatted := "0001", shortname := none,
    abstract := "An abstract", status := "Active", lastcall := none,
    type := "Standards Track", interim := true, date := ⟨2014, 1, 2⟩,
    version := "0.1", majorVersion := 0, minorVersion := .int 1,
    depends := [], images := [], parseErrors := [] }

/-- Record parsed from the non-interim blob rawB. -/
def rec2 : XEPRec :=
  { title := "Example", nr := .int 1, nrFormatted := "0001", shortname := none,
    abstract := "An abstract", status := "Active", lastcall := none,
    type := "Standards Track", interim := false, date := ⟨2014, 1, 2⟩,
    version := "1.0", majorVersion := 1, minorVersion := .int 0,
    depends := ["A", "B"], images := [], parseErrors := [] }

/-- State after re-parsing commit c1 in the history-walk witness. -/
def st1c : XEPState :=
  { xrec := rec1, raw := "rawA", filename := "/repo/xep-0001.xml",
    gittoplevel := some "/repo", buildErrors := [] }

/-- State after re-parsing commit c2 in the history-walk witness. -/
def st2c : XEPState :=
  { xrec := rec2, raw := "rawB", filename := "/repo/xep-0001.xml",
    gittoplevel := some "/repo", buildErrors := [] }

/-- Git collaborator whose log invocation fails. -/
def cenvLogErr : VcsEnv :=
  { logRes := .error "boom", showRes := fun _ => .error "unused" }

/-- Git collaborator whose blob fetch for commit c1 fails. -/
def cenvBlobErr : VcsEnv :=
  { logRes := .ok "c0\nc1", showRes := fun _ => .error "berr" }

/-! ## Shared lemmas -/

/-- Success inversion for readXEP: a successful parse locates every
required node, every fallible step succeeds, and the record is the one
readXEP assembles from them. -/
theorem readXEP_ok_elim (root : XNode) (fn : String) (now : Date)
    (pf : Option String) (errs0 : List String) (r : XEPRec)
    (h : readXEP root fn now pf errs0 = .ok r) :
    ∃ xepN hdr titleN numN absN stN tyN revN dateN verN np mn imgs,
      (collect "xep" root).head? = some xepN ∧
      (getElems xepN "header").head? = some hdr ∧
      (getElems hdr "title").head? = some titleN ∧
      (getElems hdr "number").head? = some numN ∧
      (getElems hdr "abstract").head? = some absN ∧
      (getElems hdr "status").head? = some stN ∧
      (getElems hdr "type").head? = some tyN ∧
      (getElems hdr "revision").head? = some revN ∧
      (getElems revN "date").head? = some dateN ∧
      (getElems revN "version").head? = some verN ∧
      numberStep (getText numN.children) (fleOf fn) (parentBaseOf fn) fn pf = .ok np ∧
      minorStep (getText verN.children) (!(getElems hdr "interim").isEmpty)
        (strForm (fmtNr np.1) fn) fn = .ok mn ∧
      getImages (getElems xepN "img") = .ok imgs ∧
      r = builtRec fn now errs0 xepN hdr titleN absN stN tyN revN dateN verN np mn imgs := by
  unfold readXEP at h
  rcases h1 : (collect "xep" root).head? with _ | xepN <;> rw [h1] at h <;>
    simp only [] at h
  case none => exact Except.noConfusion h
  rcases h2 : (getElems xepN "header").head? with _ | hdr <;> rw [h2] at h <;>
    simp only [] at h
  case none => exact Except.noConfusion h
  rcases h3 : (getElems hdr "title").head? with _ | titleN <;> rw [h3] at h <;>
    simp only [] at h
  case none => exact Except.noConfusion h
  rcases h4 : (getElems hdr "number").head? with _ | numN <;> rw [h4] at h <;>
    simp only [] at h
  case none => exact Except.noConfusion h
  rcases h5 : numberStep (getText numN.children) (fleOf fn) (parentBaseOf fn) fn pf
      with e | np <;> rw [h5] at h <;> simp only [] at h
  case error => exact Except.noConfusion h
  rcases h6 : (getElems hdr "abstract").head? with _ | absN <;> rw [h6] at h <;>
    simp only [] at h
  case none => exact Except.noConfusion h
  rcases h7 : (getElems hdr "status").head? with _ | stN <;> rw [h7] at h <;>
    simp only [] at h
  case none => exact Except.noConfusion h
  rcases h8 : (getElems hdr "type").head? with _ | tyN <;> rw [h8] at h <;>
    simp only [] at h
  case none => exact Except.noConfusion h
  rcases h9 : (getElems hdr "revision").head? with _ | revN <;> rw [h9] at h <;>
    simp only [] at h
  case none => exact Except.noConfusion h
  rcases h10 : (getElems revN "date").head? with _ | dateN <;> rw [h10] at h <;>
    simp only [] at h
  case none => exact Except.noConfusion h
  rcases h11 : (getElems revN "version").head? with _ | verN <;> rw [h11] at h <;>
    simp only [] at h
  case none => exact Except.noConfusion h
  rcases h12 : minorStep (getText verN.children) (!(getElems hdr "interim").isEmpty)
      (strForm (fmtNr np.1) fn) fn with e | mn <;> rw [h12] at h <;> simp only [] at h
  case error => exact Except.noConfusion h
  rcases h13 : getImages (getElems xepN "img") with e | imgs <;> rw [h13] at h <;>
    simp only [] at h
  case error => exact Except.noConfusion h
  refine ⟨xepN, hdr, titleN, numN, absN, stN, tyN, revN, dateN, verN, np, mn, imgs,
    rfl, h2, h3, h4, h6, h7, h8, h9, h10, h11, h5, h12, h13, ?_⟩
  simp only [Except.ok.injEq] at h
  exact h.symm

/-- Success construction for readXEP: with every required node located and
every fallible step successful, readXEP returns the assembled record. -/
theorem readXEP_ok_intro (root : XNode) (fn : String) (now : Date)
    (pf : Option String) (errs0 : List String)
    (xepN hdr titleN numN absN stN tyN revN dateN verN : XNode)
    (np mn : NrVal × List String) (imgs : List String)
    (h1 : (collect "xep" root).head? = some xepN)
    (h2 : (getElems xepN "header").head? = some hdr)
    (h3 : (getElems hdr "title").head? = some titleN)
    (h4 : (getElems hdr "number").head? = some numN)
    (h6 : (getElems hdr "abstract").head? = some absN)
    (h7 : (getElems hdr "status").head? = some stN)
    (h8 : (getElems hdr "type").head? = some tyN)
    (h9 : (getElems hdr "revision").head? = some revN)
    (h10 : (getElems revN "date").head? = some dateN)
    (h11 : (getElems revN "version").head? = some verN)
    (h5 : numberStep (getText numN.children) (fleOf fn) (parentBaseOf fn) fn pf = .ok np)
    (h12 : minorStep (getText verN.children) (!(getElems hdr "interim").isEmpty)
      (strForm (fmtNr np.1) fn) fn = .ok mn)
    (h13 : getImages (getElems xepN "img") = .ok imgs) :
    readXEP root fn now pf errs0 =
      .ok (builtRec fn now errs0 xepN hdr titleN absN stN tyN revN dateN verN np mn imgs) := by
  unfold readXEP
  rw [h1]; simp only []
  rw [h2]; simp only []
  rw [h3]; simp only []
  rw [h4]; simp only []
  rw [h5]; simp only []
  rw [h6]; simp only []
  rw [h7]; simp only []
  rw [h8]; simp only []
  rw [h9]; simp only []
  rw [h10]; simp only []
  rw [h11]; simp only []
  rw [h12]; simp only []
  rw [h13]; simp only []
  rfl

/-- Failure construction for readXEP when the minor-version step raises:
with every node located and the number step successful, the error of the
minor-version step propagates out of readXEP. -/
theorem readXEP_minor_error_intro (root : XNode) (fn : String) (now : Date)
    (pf : Option String) (errs0 : List String)
    (xepN hdr titleN numN absN stN tyN revN dateN verN : XNode)
    (np : NrVal × List String) (e : PyErr)
    (h1 : (collect "xep" root).head? = some xepN)
    (h2 : (getElems xepN "header").head? = some hdr)
    (h3 : (getElems hdr "title").head? = some titleN)
    (h4 : (getElems hdr "number").head? = some numN)
    (h6 : (getElems hdr "abstract").head? = some absN)
    (h7 : (getElems hdr "status").head? = some stN)
    (h8 : (getElems hdr "type").head? = some tyN)
    (h9 : (getElems hdr "revision").head? = some revN)
    (h10 : (getElems revN "date").head? = some dateN)
    (h11 : (getElems revN "version").head? = some verN)
    (h5 : numberStep (getText numN.children) (fleOf fn) (parentBaseOf fn) fn pf = .ok np)
    (h12 : minorStep (getText verN.children) (!(getElems hdr "interim").isEmpty)
      (strForm (fmtNr np.1) fn) fn = .error e) :
    readXEP root fn now pf errs0 = .error e := by
  unfold readXEP
  rw [h1]; simp only []
  rw [h2]; simp only []
  rw [h3]; simp only []
  rw [h4]; simp only []
  rw [h5]; simp only []
  rw [h6]; simp only []
  rw [h7]; simp only []
  rw [h8]; simp only []
  rw [h9]; simp only []
  rw [h10]; simp only []
  rw [h11]; simp only []
  rw [h12]

/-- A successful image collection means every img element carried a src
attribute and the result lists the attribute values in order. -/
theorem getImages_ok_elim (l : List XNode) (vs : List String)
    (h : getImages l = .ok vs) :
    vs = l.map (fun n => (n.attrs.lookup "src").getD "") ∧
      ∀ n ∈ l, (n.attrs.lookup "src").isSome := by
  induction l generalizing vs with
  | nil =>
    unfold getImages at h
    simp only [Except.ok.injEq] at h
    simp [h.symm]
  | cons n ns ih =>
    unfold getImages at h
    rcases hv : n.attrs.lookup "src" with _ | v <;> rw [hv] at h
    · exact Except.noConfusion h
    · rcases hrest : getImages ns with e | vs0 <;> rw [hrest] at h
      · exact Except.noConfusion h
      · obtain ⟨hmap, hall⟩ := ih vs0 hrest
        simp only [Except.ok.injEq] at h
        subst h
        refine ⟨by simp [hv, hmap], ?_⟩
        intro m hm
        rcases List.mem_cons.mp hm with hm | hm
        · subst hm; simp [hv]
        · exact hall m hm

/-- The number step on an inbox or template file whose number element is
not xxxx: one inline diagnostic and the file name truncated by four
characters. -/
theorem numberStep_proto (nr fle pb fn : String) (pf : Option String)
    (hloc : pb = "inbox" ∨ fle = "xep-template.xml")
    (hnr : nr ≠ "xxxx") (hnr2 : nr ≠ "XXXX") :
    numberStep nr fle pb fn pf = .ok (.str (fle.dropRight 4), [protoErrMsg nr fn]) := by
  have hc : (pb == "inbox" || fle == "xep-template.xml") = true := by
    rcases hloc with h | h <;> simp [h]
  unfold numberStep
  rw [hc]
  simp [hnr, hnr2]

/-! ## Claim theorems -/

/-- C8: for every parsed document, the depends field equals the ordered
text contents of the spec entries of the dependencies block, in document
order, and the empty sequence when the block is absent — the spec-modelled
extraction specDependencies. -/
theorem depends_eq_specDependencies (root : XNode) (fn : String) (now : Date)
    (pf : Option String) (errs0 : List String) (r : XEPRec)
    (h : readXEP root fn now pf errs0 = .ok r) :
    r.depends = specDependencies root := by
  obtain ⟨xepN, hdr, tN, nN, aN, sN, tyN, rN, dN, vN, np, mn, imgs,
    e1, e2, e3, e4, e6, e7, e8, e9, e10, e11, e5, e12, e13, hr⟩ :=
    readXEP_ok_elim root fn now pf errs0 r h
  subst hr
  simp only [builtRec, specDependencies, e1, e2]

/-- C8 witness: the sample document with dependencies A and B yields
depends equal to the two entries, in that order. -/
theorem depends_eq_specDependencies_witness :
    ∃ r, readXEP doc1 "/repo/xep-0001.xml" ⟨2020, 1, 1⟩ none [] = .ok r ∧
      r.depends = ["A", "B"] := by
  have hok : (readXEP doc1 "/repo/xep-0001.xml" ⟨2020, 1, 1⟩ none []).isOk = true := by
    decide
  rcases hres : readXEP doc1 "/repo/xep-0001.xml" ⟨2020, 1, 1⟩ none [] with e | r
  · rw [hres] at hok; exact absurd hok (by simp [Except.isOk, Except.toBool])
  · refine ⟨r, rfl, ?_⟩
    have := depends_eq_specDependencies doc1 "/repo/xep-0001.xml" ⟨2020, 1, 1⟩ none [] r hres
    rw [this]
    decide

/-- C10: image extraction reads the src attribute unguarded.  When every
img element carries a src attribute, a successful parse lists the
attribute values in document order; when some img element has no src
attribute, readXEP raises instead of recording a parse error. -/
theorem images_unguarded_src (root : XNode) (fn : String) (now : Date)
    (pf : Option String) (errs0 : List String) (xepN : XNode)
    (hx : (collect "xep" root).head? = some xepN) :
    (∀ r, readXEP root fn now pf errs0 = .ok r →
      r.images = (getElems xepN "img").map (fun n => (n.attrs.lookup "src").getD "") ∧
      ∀ n ∈ getElems xepN "img", (n.attrs.lookup "src").isSome) ∧
    ((∃ n ∈ getElems xepN "img", n.attrs.lookup "src" = none) →
      (readXEP root fn now pf errs0).isOk = false) := by
  have hmain : ∀ r, readXEP root fn now pf errs0 = .ok r →
      r.images = (getElems xepN "img").map (fun n => (n.attrs.lookup "src").getD "") ∧
      ∀ n ∈ getElems xepN "img", (n.attrs.lookup "src").isSome := by
    intro r h
    obtain ⟨xepN', hdr, tN, nN, aN, sN, tyN, rN, dN, vN, np, mn, imgs,
      e1, e2, e3, e4, e6, e7, e8, e9, e10, e11, e5, e12, e13, hr⟩ :=
      readXEP_ok_elim root fn now pf errs0 r h
    rw [hx] at e1
    injection e1 with e1
    subst e1
    obtain ⟨hmap, hall⟩ := getImages_ok_elim _ _ e13
    subst hr
    exact ⟨by simpa [builtRec] using hmap, hall⟩
  refine ⟨hmain, ?_⟩
  rintro ⟨n, hn, hnone⟩
  rcases hres : readXEP root fn now pf errs0 with e | r
  · rfl
  · exfalso
    have := (hmain r hres).2 n hn
    rw [hnone] at this
    simp at this

/-- C10 witness: a document whose two img elements carry src attributes
parses with both values in order, and a document with an img element that
has no src attribute makes readXEP raise. -/
theorem images_unguarded_src_witness :
    (∃ r, readXEP docImgs "/repo/xep-0001.xml" ⟨2020, 1, 1⟩ none [] = .ok r ∧
      r.images = ["u1.png", "u2.png"]) ∧
    (readXEP docBadImg "/repo/xep-0001.xml" ⟨2020, 1, 1⟩ none []).isOk = false := by
  constructor
  · have hok : (readXEP docImgs "/repo/xep-0001.xml" ⟨2020, 1, 1⟩ none []).isOk = true := by
      decide
    rcases hres : readXEP docImgs "/repo/xep-0001.xml" ⟨2020, 1, 1⟩ none [] with e | r
    · rw [hres] at hok; exact absurd hok (by simp [Except.isOk, Except.toBool])
    · refine ⟨r, rfl, ?_⟩
      have := ((images_unguarded_src docImgs "/repo/xep-0001.xml" ⟨2020, 1, 1⟩ none []
        docImgs rfl).1 r hres).1
      rw [this]
      decide
  · exact (images_unguarded_src docBadImg "/repo/xep-0001.xml" ⟨2020, 1, 1⟩ none []
      docBadImg rfl).2 (by decide)

/-- C6 (amended): a document under an inbox path or the template file whose
number element is not xxxx records the inline proto-XEP diagnostic and
sets the number to the file name truncated by four characters — the stem
only when the extension has three characters. -/
theorem inbox_number_mismatch (root : XNode) (fn : String) (now : Date)
    (pf : Option String) (errs0 : List String) (r : XEPRec) (xepN hdr numN : XNode)
    (h1 : (collect "xep" root).head? = some xepN)
    (h2 : (getElems xepN "header").head? = some hdr)
    (h4 : (getElems hdr "number").head? = some numN)
    (hloc : parentBaseOf fn = "inbox" ∨ fleOf fn = "xep-template.xml")
    (hnr : getText numN.children ≠ "xxxx") (hnr2 : getText numN.children ≠ "XXXX")
    (h : readXEP root fn now pf errs0 = .ok r) :
    r.nr = .str ((fleOf fn).dropRight 4) ∧
      protoErrMsg (getText numN.children) fn ∈ r.parseErrors ∧
      r.parseErrors ≠ [] := by
  obtain ⟨xepN', hdr', tN, nN, aN, sN, tyN, rN, dN, vN, np, mn, imgs,
    e1, e2, e3, e4, e6, e7, e8, e9, e10, e11, e5, e12, e13, hr⟩ :=
    readXEP_ok_elim root fn now pf errs0 r h
  rw [h1] at e1; injection e1 with e1; subst e1
  rw [h2] at e2; injection e2 with e2; subst e2
  rw [h4] at e4; injection e4 with e4; subst e4
  rw [numberStep_proto (getText numN.children) (fleOf fn) (parentBaseOf fn) fn pf
    hloc hnr hnr2] at e5
  injection e5 with e5
  subst e5 hr
  refine ⟨rfl, ?_, ?_⟩
  · simp [builtRec, List.mem_append]
  · simp [builtRec, List.append_eq_nil]

/-- C6 witness: an inbox file with number 1234 and a three character
extension, where the truncation and the stem agree with the claim. -/
theorem inbox_number_mismatch_witness :
    ∃ r, readXEP docInbox "/repo/inbox/xep-wave.xml" ⟨2020, 1, 1⟩ none [] = .ok r ∧
      r.nr = .str "xep-wave" ∧ r.parseErrors ≠ [] := by
  have hok : (readXEP docInbox "/repo/inbox/xep-wave.xml" ⟨2020, 1, 1⟩ none []).isOk
      = true := by decide
  rcases hres : readXEP docInbox "/repo/inbox/xep-wave.xml" ⟨2020, 1, 1⟩ none []
    with e | r
  · rw [hres] at hok; exact absurd hok (by simp [Except.isOk, Except.toBool])
  · obtain ⟨hnr, _, hne⟩ := inbox_number_mismatch docInbox "/repo/inbox/xep-wave.xml"
      ⟨2020, 1, 1⟩ none [] r docInbox docInboxHeader (textEl "number" "1234")
      rfl rfl rfl (Or.inl (by decide)) (by decide) (by decide) hres
    exact ⟨r, rfl, by simpa using hnr, hne⟩

/-- C6 counterexample: an inbox file with a four character extension: the
parse errors are non-empty as claimed, but the recorded number is the name
truncated by four characters, not the stem. -/
theorem inbox_number_stem_cx :
    ((readXEP docInbox "/repo/inbox/doc.xhtml" ⟨2020, 1, 1⟩ none []).toOption.map
        XEPRec.nr = some (.str "doc.x")) ∧
    specStem (fleOf "/repo/inbox/doc.xhtml") = "doc" ∧
    ((readXEP docInbox "/repo/inbox/doc.xhtml" ⟨2020, 1, 1⟩ none []).toOption.map
        (fun r => r.parseErrors.length) = some 1) ∧
    NrVal.str "doc.x" ≠ .str (specStem (fleOf "/repo/inbox/doc.xhtml")) := by
  decide

/-- C2: on a non-interim document with the non-numeric minor version
component x, readXEP defaults the minor version to 0 and appends exactly
one diagnostic, but that diagnostic names "major version" (line 221 of
xep.py), not the minor-version field. -/
theorem minor_version_error_names_major_version :
    ((readXEP docMinorX "/repo/xep-0001.xml" ⟨2020, 1, 1⟩ none []).toOption.map
        XEPRec.minorVersion = some (.int 0)) ∧
    ((readXEP docMinorX "/repo/xep-0001.xml" ⟨2020, 1, 1⟩ none []).toOption.map
        XEPRec.parseErrors =
      some [parseErrorMsg "major version" "XEP-0001" "/repo/xep-0001.xml"]) ∧
    ((readXEP docMinorX "/repo/xep-0001.xml" ⟨2020, 1, 1⟩ none []).toOption.map
        XEPRec.interim = some false) := by
  decide

/-- The number step never raises when the number parses or a previous
nrFormatted exists, and it appends exactly specNumberFails diagnostics. -/
theorem numberStep_errCount (nr fle pb fn : String) (pf : Option String)
    (hs : pyToInt nr ≠ none ∨ pf ≠ none) :
    ∃ np, numberStep nr fle pb fn pf = .ok np ∧ np.2.length = specNumberFails nr fle pb := by
  unfold numberStep specNumberFails
  by_cases h1 : pb = "inbox" ∨ fle = "xep-template.xml"
  · by_cases h2 : nr = "xxxx" ∨ nr = "XXXX"
    · rcases h2 with h2 | h2 <;> subst h2 <;> simp [h1]
    · push_neg at h2
      rcases h1 with h1 | h1 <;> simp [h1, h2.1, h2.2]
  · push_neg at h1
    by_cases h2 : nr = "xxxx" ∨ nr = "XXXX"
    · rcases h2 with h2 | h2 <;> subst h2 <;> simp [h1.1, h1.2]
    · push_neg at h2
      by_cases h3 : fle = "xep-README.xml" ∧ nr = "README"
      · simp [h1.1, h1.2, h2.1, h2.2, h3.1, h3.2]
      · rcases hpy : pyToInt nr with _ | k
        · rcases hpf : pf with _ | p
          · exact absurd hpy (hs.resolve_right (fun hb => hb hpf))
          · simp [h1.1, h1.2, h2.1, h2.2, h3, hpy, hpf]
            exact (if_pos (not_and_or.mp h3)).symm
        · simp [h1.1, h1.2, h2.1, h2.2, h3, hpy]

/-- The lastcall step computes the spec value and appends exactly
specLastcallFails diagnostics. -/
theorem lastcallStep_eq (lcN : Option XNode) (s fn : String) :
    (lastcallStep lcN s fn).1 = specLastcall (lcN.map (fun n => getText n.children)) ∧
    (lastcallStep lcN s fn).2.length =
      specLastcallFails (lcN.map (fun n => getText n.children)) := by
  unfold lastcallStep specLastcall specLastcallFails
  rcases lcN with _ | n
  · simp
  · rcases hp : parseDateYMD (getText n.children) with _ | d <;> simp [hp]

/-- The revision-date step computes the spec value and appends exactly
specDateFails diagnostics. -/
theorem dateStep_eq (ds : String) (now : Date) (s fn : String) :
    (dateStep ds now s fn).1 = specDate ds now ∧
    (dateStep ds now s fn).2.length = specDateFails ds := by
  unfold dateStep specDate specDateFails
  rcases hp : parseDateYMD ds with _ | d <;> simp [hp]

/-- The major-version step computes the spec value and appends exactly
specMajorFails diagnostics. -/
theorem majorStep_eq (v s fn : String) :
    (majorStep v s fn).1 = specMajor v ∧
    (majorStep v s fn).2.length = specMajorFails v := by
  unfold majorStep specMajor specMajorFails
  rcases hp : pyToInt ((pySplit v '.').headD "") with _ | k <;> simp [hp]

/-- The minor-version step on a version with a second dot-component
computes the spec value and appends exactly specMinorFails diagnostics. -/
theorem minorStep_some (v : String) (interim : Bool) (s fn : String) (c : String)
    (hc : (pySplit v '.').get? 1 = some c) :
    ∃ mn, minorStep v interim s fn = .ok mn ∧ mn.1 = specMinor v interim ∧
      mn.2.length = specMinorFails v interim := by
  unfold minorStep specMinor specMinorFails
  rw [hc]
  rcases hp : pyToInt c with _ | k
  · rcases interim with _ | _ <;> simp [hp, hc]
  · simp [hp, hc]

/-- The minor-version step on a version with no second dot-component is
the uncaught IndexError of line 215 of xep.py. -/
theorem minorStep_none (v : String) (interim : Bool) (s fn : String)
    (hc : (pySplit v '.').get? 1 = none) :
    minorStep v interim s fn = .error (.indexError "version split") := by
  unfold minorStep
  rw [hc]

/-- C1 (amended): for a document tree with every required header element,
every img element carrying a src attribute, and a number element that
either parses by the documented rules or a record that is being re-parsed,
readXEP never raises when the version string contains a dot: it completes
with exactly one diagnostic appended per failing field (number, last call,
revision date, major version, minor version) and the documented default
substituted for each; when the version string has no dot separator,
readXEP instead raises the uncaught IndexError of the minor-version
indexing. -/
theorem readXEP_guarded_failures (root : XNode) (fn : String) (now : Date)
    (pf : Option String) (errs0 : List String)
    (xepN hdr titleN numN absN stN tyN revN dateN verN : XNode) (imgs : List String)
    (h1 : (collect "xep" root).head? = some xepN)
    (h2 : (getElems xepN "header").head? = some hdr)
    (h3 : (getElems hdr "title").head? = some titleN)
    (h4 : (getElems hdr "number").head? = some numN)
    (h6 : (getElems hdr "abstract").head? = some absN)
    (h7 : (getElems hdr "status").head? = some stN)
    (h8 : (getElems hdr "type").head? = some tyN)
    (h9 : (getElems hdr "revision").head? = some revN)
    (h10 : (getElems revN "date").head? = some dateN)
    (h11 : (getElems revN "version").head? = some verN)
    (h13 : getImages (getElems xepN "img") = .ok imgs)
    (hnum : pyToInt (getText numN.children) ≠ none ∨ pf ≠ none) :
    ((pySplit (getText verN.children) '.').get? 1 = none →
      readXEP root fn now pf errs0 = .error (.indexError "version split")) ∧
    (∀ c, (pySplit (getText verN.children) '.').get? 1 = some c →
      ∃ r, readXEP root fn now pf errs0 = .ok r ∧
        r.parseErrors.length = errs0.length + specFailCount (getText numN.children)
          (fleOf fn) (parentBaseOf fn)
          (((getElems hdr "lastcall").head?).map (fun n => getText n.children))
          (getText dateN.children) (getText verN.children)
          (!(getElems hdr "interim").isEmpty) ∧
        r.majorVersion = specMajor (getText verN.children) ∧
        r.minorVersion = specMinor (getText verN.children)
          (!(getElems hdr "interim").isEmpty) ∧
        r.date = specDate (getText dateN.children) now ∧
        r.lastcall = specLastcall (((getElems hdr "lastcall").head?).map
          (fun n => getText n.children))) := by
  obtain ⟨np, hnp, hnplen⟩ := numberStep_errCount (getText numN.children) (fleOf fn)
    (parentBaseOf fn) fn pf hnum
  constructor
  · intro hnone
    exact readXEP_minor_error_intro root fn now pf errs0 xepN hdr titleN numN absN stN
      tyN revN dateN verN np _ h1 h2 h3 h4 h6 h7 h8 h9 h10 h11 hnp
      (minorStep_none _ _ _ _ hnone)
  · intro c hc
    obtain ⟨mn, hmn, hmn1, hmn2⟩ := minorStep_some (getText verN.children)
      (!(getElems hdr "interim").isEmpty) (strForm (fmtNr np.1) fn) fn c hc
    refine ⟨_, readXEP_ok_intro root fn now pf errs0 xepN hdr titleN numN absN stN tyN
      revN dateN verN np mn imgs h1 h2 h3 h4 h6 h7 h8 h9 h10 h11 hnp hmn h13,
      ?_, ?_, ?_, ?_, ?_⟩
    · simp only [builtRec, List.length_append]
      rw [hnplen, (lastcallStep_eq _ _ _).2, (dateStep_eq _ _ _ _).2,
        (majorStep_eq _ _ _).2, hmn2]
      unfold specFailCount
      omega
    · simp only [builtRec]
      exact (majorStep_eq _ _ _).1
    · simpa [builtRec] using hmn1
    · simp only [builtRec]
      exact (dateStep_eq _ _ _ _).1
    · simp only [builtRec]
      exact (lastcallStep_eq _ _ _).1

/-- C1 counterexample: a well-formed document whose version string is the
single component 1 makes readXEP raise the uncaught IndexError instead of
recording a diagnostic and substituting a default. -/
theorem readXEP_raises_on_dotless_version_cx :
    readXEP docNoDot "/repo/xep-0001.xml" ⟨2020, 1, 1⟩ none [] =
      .error (.indexError "version split") := by
  decide

/-- C1 witness: the fully valid sample document parses with no appended
diagnostics. -/
theorem readXEP_guarded_failures_witness :
    ∃ r, readXEP doc1 "/repo/xep-0001.xml" ⟨2020, 1, 1⟩ none [] = .ok r ∧
      r.parseErrors.length = 0 := by
  obtain ⟨r, hok, hlen, _, _, _, _⟩ :=
    (readXEP_guarded_failures doc1 "/repo/xep-0001.xml" ⟨2020, 1, 1⟩ none []
      doc1 doc1Header (textEl "title" "Example") (textEl "number" "1")
      (textEl "abstract" "An abstract") (textEl "status" "Active")
      (textEl "type" "Standards Track")
      (.elem "revision" [] [textEl "date" "2014-01-02", textEl "version" "1.0"])
      (textEl "date" "2014-01-02") (textEl "version" "1.0") []
      rfl rfl rfl rfl rfl rfl rfl rfl rfl rfl rfl (Or.inl (by decide))).2 "0" (by decide)
  exact ⟨r, hok, hlen.trans (by decide)⟩

/-- A list is a Boolean prefix of itself followed by anything. -/
theorem isPrefixOf_append_self (l r : List Char) : l.isPrefixOf (l ++ r) = true := by
  induction l with
  | nil => simp [List.isPrefixOf]
  | cons c cs ih => simp [List.isPrefixOf, ih]

/-- An all-alphanumeric run followed by an angle bracket is exactly what
the greedy character class of the pattern consumes. -/
theorem takeWhile_run (run t : List Char) (hrun : run.all isAlnumAscii = true) :
    (run ++ '<' :: t).takeWhile isAlnumAscii = run ∧
    (run ++ '<' :: t).dropWhile isAlnumAscii = '<' :: t := by
  induction run with
  | nil =>
    simp [List.takeWhile, List.dropWhile,
      show isAlnumAscii '<' = false from by decide]
  | cons c cs ih =>
    simp only [List.all_cons, Bool.and_eq_true] at hrun
    simp [List.takeWhile_cons, List.dropWhile_cons, hrun.1, ih hrun.2]

/-- The pattern matches at a position holding the open tag, an
alphanumeric run and the close tag, leaving the remainder. -/
theorem matchAt_openrun (o t run q : List Char) (hrun : run.all isAlnumAscii = true) :
    matchAt ('<' :: o) ('<' :: t) (('<' :: o) ++ run ++ ('<' :: t) ++ q) = some q := by
  unfold matchAt
  have e1 : ('<' :: o) ++ run ++ ('<' :: t) ++ q =
      ('<' :: o) ++ (run ++ '<' :: (t ++ q)) := by simp
  rw [e1, isPrefixOf_append_self]
  rw [if_pos rfl]
  rw [List.drop_left]
  simp only []
  obtain ⟨htk, hdk⟩ := takeWhile_run run (t ++ q) hrun
  rw [hdk]
  rw [show ('<' :: (t ++ q)) = ('<' :: t) ++ q from by simp, isPrefixOf_append_self]
  rw [if_pos rfl]
  rw [List.drop_left]

/-- Substitution step at a non-matching head position. -/
theorem subFirst_cons_none (openT closeT repl : List Char) (c : Char) (cs : List Char)
    (h : matchAt openT closeT (c :: cs) = none) :
    subFirst openT closeT repl (c :: cs) = c :: subFirst openT closeT repl cs := by
  conv_lhs => unfold subFirst
  rw [h]

/-- Substitution step at a matching head position. -/
theorem subFirst_cons_some (openT closeT repl : List Char) (c : Char) (cs rest : List Char)
    (h : matchAt openT closeT (c :: cs) = some rest) :
    subFirst openT closeT repl (c :: cs) = repl ++ rest := by
  conv_lhs => unfold subFirst
  rw [h]

/-- The substitution passes over a prefix with no match unchanged. -/
theorem subFirst_skipNoMatch (openT closeT repl p rest : List Char)
    (hnm : ∀ i < p.length, matchAt openT closeT ((p ++ rest).drop i) = none) :
    subFirst openT closeT repl (p ++ rest) = p ++ subFirst openT closeT repl rest := by
  induction p with
  | nil => simp
  | cons c cs ih =>
    have h0 := hnm 0 (by simp)
    simp only [List.drop_zero, List.cons_append] at h0
    rw [List.cons_append, subFirst_cons_none _ _ _ _ _ h0]
    rw [ih (fun i hi => by
      have h1 := hnm (i + 1) (by simpa using Nat.succ_lt_succ hi)
      simpa [List.cons_append] using h1)]
    simp

/-- The substitution rewrites a position where the pattern matches. -/
theorem subFirst_at_match (o t run q repl : List Char)
    (hrun : run.all isAlnumAscii = true) :
    subFirst ('<' :: o) ('<' :: t) repl (('<' :: o) ++ run ++ ('<' :: t) ++ q) =
      repl ++ q := by
  have hm := matchAt_openrun o t run q hrun
  rw [show ('<' :: o) ++ run ++ ('<' :: t) ++ q =
    '<' :: (o ++ run ++ ('<' :: t) ++ q) from by simp] at hm ⊢
  exact subFirst_cons_some _ _ _ _ _ _ hm

/-- C3 (amended): the in-place text patcher replaces the text content of
the first occurrence of the named element whose existing text content is
purely alphanumeric (the first position where the textual pattern
matches), and leaves every other byte of the text unchanged; occurrences
with non-alphanumeric content, and everything after the rewritten
occurrence, are untouched. -/
theorem replaceElementText_first_alnum (name text : String) (p run q : List Char)
    (hrun : run.all isAlnumAscii = true)
    (hnm : ∀ i < p.length,
      matchAt ("<" ++ name ++ ">").data ("</" ++ name ++ ">").data
        ((p ++ (("<" ++ name ++ ">").data ++ (run ++ (("</" ++ name ++ ">").data ++ q)))).drop i)
        = none) :
    replaceElementText name text
        ⟨p ++ (("<" ++ name ++ ">").data ++ (run ++ (("</" ++ name ++ ">").data ++ q)))⟩ =
      ⟨p ++ (("<" ++ name ++ ">").data ++ (text.data ++ (("</" ++ name ++ ">").data ++ q)))⟩ := by
  have hopen : ("<" ++ name ++ ">").data = '<' :: (name.data ++ ['>']) := by
    simp [String.data_append, show ("<").data = ['<'] from rfl,
      show (">").data = ['>'] from rfl]
  have hclose : ("</" ++ name ++ ">").data = '<' :: ('/' :: (name.data ++ ['>'])) := by
    simp [String.data_append, show ("</").data = ['<', '/'] from rfl,
      show (">").data = ['>'] from rfl]
  have hrepl : ("<" ++ name ++ ">" ++ text ++ "</" ++ name ++ ">").data =
      ("<" ++ name ++ ">").data ++ text.data ++ ("</" ++ name ++ ">").data := by
    simp [String.data_append]
  unfold replaceElementText
  refine congrArg String.mk ?_
  rw [show (⟨p ++ (("<" ++ name ++ ">").data ++ (run ++ (("</" ++ name ++ ">").data ++ q)))⟩ :
      String).data = p ++ (("<" ++ name ++ ">").data ++ (run ++ (("</" ++ name ++ ">").data ++ q)))
    from rfl]
  rw [subFirst_skipNoMatch _ _ _ p _ hnm]
  congr 1
  rw [show ("<" ++ name ++ ">").data ++ (run ++ (("</" ++ name ++ ">").data ++ q)) =
    ("<" ++ name ++ ">").data ++ run ++ ("</" ++ name ++ ">").data ++ q from by simp]
  rw [hrepl, hopen, hclose]
  rw [subFirst_at_match _ _ _ _ _ hrun]
  simp

/-- C3 counterexample: when the element name occurs twice and the first
occurrence has non-alphanumeric content (Last Call), the patcher rewrites
the second occurrence, not the first, so the result differs from the
spec-modelled first-element replacement. -/
theorem replaceElementText_skips_first_nonalnum_cx :
    replaceElementText "status" "Deferred"
        "<status>Last Call</status><status>Active</status>" =
      "<status>Last Call</status><status>Deferred</status>" ∧
    specReplaceFirst "status" "Deferred"
        "<status>Last Call</status><status>Active</status>" =
      "<status>Deferred</status><status>Active</status>" ∧
    replaceElementText "status" "Deferred"
        "<status>Last Call</status><status>Active</status>" ≠
      specReplaceFirst "status" "Deferred"
        "<status>Last Call</status><status>Active</status>" := by
  refine ⟨by decide, by decide, by decide⟩

/-- C3 witness: patching status with Deferred on text whose first status
occurrence has alphanumeric content rewrites only that occurrence, leaving
the second occurrence and every other byte unchanged. -/
theorem replaceElementText_first_alnum_witness :
    replaceElementText "status" "Deferred"
        "<status>Active</status><status>Old</status>" =
      "<status>Deferred</status><status>Old</status>" := by
  have h := replaceElementText_first_alnum "status" "Deferred" []
    ("Active".data) ("<status>Old</status>".data) (by decide)
    (fun i hi => absurd hi (by simp))
  have e1 : (⟨[] ++ (("<" ++ "status" ++ ">").data ++ ("Active".data ++
      (("</" ++ "status" ++ ">").data ++ "<status>Old</status>".data)))⟩ : String) =
      "<status>Active</status><status>Old</status>" := by decide
  have e2 : (⟨[] ++ (("<" ++ "status" ++ ">").data ++ (("Deferred" : String).data ++
      (("</" ++ "status" ++ ">").data ++ "<status>Old</status>".data)))⟩ : String) =
      "<status>Deferred</status><status>Old</status>" := by decide
  rw [e1, e2] at h
  exact h

/-- C4: the history resolver starts fetching at commit index 1 (it never
consults commit 0), re-parses each successive blob into the record, stops
as soon as the current state is no longer interim, and in particular with
a three-commit log whose commit 2 blob re-parses as non-interim it
terminates after re-parsing commit 2 with that state as the result. -/
theorem revertInterim_walks_from_second_commit
    (env : VcsEnv) (parseS : String → Option XNode) (now : Date) :
    (∀ st g out, st.xrec.interim = true → st.gittoplevel = some g →
      env.logRes = .ok out →
      revertInterim env parseS now st =
        revertLoop env parseS now ((pySplit out '\n').drop 1) st) ∧
    (∀ commits st, st.xrec.interim = false →
      revertLoop env parseS now commits st = .ok st) ∧
    (∀ cid rest st blob st1, st.xrec.interim = true →
      env.showRes cid = .ok blob → reparseState parseS now st blob = .ok st1 →
      revertLoop env parseS now (cid :: rest) st = revertLoop env parseS now rest st1) ∧
    (∀ st g out c0 c1 c2 blob1 blob2 st1 st2,
      st.xrec.interim = true → st.gittoplevel = some g → env.logRes = .ok out →
      pySplit out '\n' = [c0, c1, c2] →
      env.showRes c1 = .ok blob1 → reparseState parseS now st blob1 = .ok st1 →
      st1.xrec.interim = true →
      env.showRes c2 = .ok blob2 → reparseState parseS now st1 blob2 = .ok st2 →
      st2.xrec.interim = false →
      revertInterim env parseS now st = .ok st2) := by
  have hstart : ∀ st g out, st.xrec.interim = true → st.gittoplevel = some g →
      env.logRes = .ok out →
      revertInterim env parseS now st =
        revertLoop env parseS now ((pySplit out '\n').drop 1) st := by
    intro st g out hint hg hlog
    unfold revertInterim
    rw [hint, hg, hlog]
    simp
  have hstop : ∀ commits st, st.xrec.interim = false →
      revertLoop env parseS now commits st = .ok st := by
    intro commits st hint
    cases commits <;> (unfold revertLoop; rw [hint]; simp)
  have hstep : ∀ cid rest st blob st1, st.xrec.interim = true →
      env.showRes cid = .ok blob → reparseState parseS now st blob = .ok st1 →
      revertLoop env parseS now (cid :: rest) st = revertLoop env parseS now rest st1 := by
    intro cid rest st blob st1 hint hshow hre
    conv_lhs => unfold revertLoop
    rw [hint, hshow]
    simp [hre]
  refine ⟨hstart, hstop, hstep, ?_⟩
  intro st g out c0 c1 c2 blob1 blob2 st1 st2 hint hg hlog hsplit hs1 hr1 hi1 hs2 hr2 hi2
  rw [hstart st g out hint hg hlog, hsplit]
  rw [show ([c0, c1, c2].drop 1) = [c1, c2] from rfl]
  rw [hstep c1 [c2] st blob1 st1 hint hs1 hr1]
  rw [hstep c2 [] st1 blob2 st2 hi1 hs2 hr2]
  exact hstop [] st2 hi2

/-- C4 witness: the concrete three-commit log where only the oldest blob
is non-interim; commit c0 is never fetched (its fetch would fail). -/
theorem revertInterim_walks_witness :
    revertInterim cenv4 parseS4 ⟨2020, 1, 1⟩ st0 = .ok st2c ∧
      st2c.xrec.interim = false := by
  refine ⟨?_, by decide⟩
  exact (revertInterim_walks_from_second_commit cenv4 parseS4 ⟨2020, 1, 1⟩).2.2.2
    st0 "/repo" "c0\nc1\nc2" "c0" "c1" "c2" "rawA" "rawB" st1c st2c
    (by decide) rfl rfl (by decide) (by decide) (by decide) (by decide)
    (by decide) (by decide) (by decide)

/-- C5 (amended): a failure to read the commit log, or a failure to read
a blob during the walk, aborts the walk with exactly one warning appended
to buildErrors and every other field of the record unchanged; the
log-exhaustion case is excluded (see the counterexample: it raises). -/
theorem revertInterim_vcs_failures (env : VcsEnv) (parseS : String → Option XNode)
    (now : Date) :
    (∀ st g e, st.xrec.interim = true → st.gittoplevel = some g →
      env.logRes = .error e →
      revertInterim env parseS now st =
        .ok { st with buildErrors := st.buildErrors ++ [logWarn (xepStr st) e] }) ∧
    (∀ cid rest st e, st.xrec.interim = true → env.showRes cid = .error e →
      revertLoop env parseS now (cid :: rest) st =
        .ok { st with buildErrors := st.buildErrors ++ [blobWarn (xepStr st) e] }) := by
  constructor
  · intro st g e hint hg hlog
    unfold revertInterim
    rw [hint, hg, hlog]
    simp
  · intro cid rest st e hint hshow
    conv_lhs => unfold revertLoop
    rw [hint, hshow]
    simp

/-- C5 witness: concrete log-failure and blob-failure environments. -/
theorem revertInterim_vcs_failures_witness :
    revertInterim cenvLogErr parseS4 ⟨2020, 1, 1⟩ st0 =
      .ok { st0 with buildErrors := [logWarn (xepStr st0) "boom"] } ∧
    revertInterim cenvBlobErr parseS4 ⟨2020, 1, 1⟩ st0 =
      .ok { st0 with buildErrors := [blobWarn (xepStr st0) "berr"] } := by
  constructor
  · have h := (revertInterim_vcs_failures cenvLogErr parseS4 ⟨2020, 1, 1⟩).1
      st0 "/repo" "boom" (by decide) rfl rfl
    simpa [st0] using h
  · have hstart : revertInterim cenvBlobErr parseS4 ⟨2020, 1, 1⟩ st0 =
        revertLoop cenvBlobErr parseS4 ⟨2020, 1, 1⟩ ["c1"] st0 := by
      have h := (revertInterim_walks_from_second_commit cenvBlobErr parseS4
        ⟨2020, 1, 1⟩).1 st0 "/repo" "c0\nc1" (by decide) rfl rfl
      rw [h]
      rfl
    rw [hstart]
    have h := (revertInterim_vcs_failures cenvBlobErr parseS4 ⟨2020, 1, 1⟩).2
      "c1" [] st0 "berr" (by decide) rfl
    simpa [st0] using h

/-- C5 counterexample: with every commit in the log interim (a one-commit
log whose walk starts past the end), revertInterim raises the IndexError
of the unguarded commits indexing instead of recording a warning. -/
theorem revertInterim_exhausted_log_raises_cx :
    revertInterim cenvExhaust parseS4 ⟨2020, 1, 1⟩ st0 =
      .error (.indexError "commits") ∧ st0.xrec.interim = true := by
  exact ⟨by decide, by decide⟩

/-- C7: the defer workflow checks version-control cleanliness first; when
the record is not under version control, or the status query fails, or the
file is not clean, it records a warning and emits the four build steps
without a commit; when under version control and clean it emits the four
steps followed by a commit whose message is Deferring followed by the
document name. -/
theorem defer_checks_clean_and_commits (gt : Option String)
    (statusRes : Except String String) (pre post : String) :
    ((gt = none → (deferModel gt statusRes pre post).1 ≠ [] ∧
      (deferModel gt statusRes pre post).2 =
        [.markDeferred, .renderHTML, .renderPDF, .archiveStep]) ∧
     (∀ g e, gt = some g → statusRes = .error e →
      (deferModel gt statusRes pre post).1 ≠ [] ∧
      (deferModel gt statusRes pre post).2 =
        [.markDeferred, .renderHTML, .renderPDF, .archiveStep]) ∧
     (∀ g out, gt = some g → statusRes = .ok out → out ≠ "" →
      (deferModel gt statusRes pre post).1 ≠ [] ∧
      (deferModel gt statusRes pre post).2 =
        [.markDeferred, .renderHTML, .renderPDF, .archiveStep]) ∧
     (∀ g, gt = some g → statusRes = .ok "" →
      (deferModel gt statusRes pre post).1 = [] ∧
      (deferModel gt statusRes pre post).2 =
        [.markDeferred, .renderHTML, .renderPDF, .archiveStep,
          .commit ("Deferring " ++ post)])) := by
  refine ⟨?_, ?_, ?_, ?_⟩
  · intro hgt
    subst hgt
    simp [deferModel]
  · intro g e hgt hst
    subst hgt hst
    simp [deferModel, isGitCleanModel]
  · intro g out hgt hst hne
    subst hgt hst
    simp [deferModel, isGitCleanModel, hne]
  · intro g hgt hst
    subst hgt hst
    simp [deferModel, isGitCleanModel]

/-- C7 witness: the three concrete situations. -/
theorem defer_checks_clean_witness :
    ((deferModel none (.ok "") "XEP-0001" "XEP-0001").1 ≠ [] ∧
     (deferModel none (.ok "") "XEP-0001" "XEP-0001").2 =
       [.markDeferred, .renderHTML, .renderPDF, .archiveStep]) ∧
    ((deferModel (some "/repo") (.ok "") "XEP-0001" "XEP-0001").1 = [] ∧
     (deferModel (some "/repo") (.ok "") "XEP-0001" "XEP-0001").2 =
       [.markDeferred, .renderHTML, .renderPDF, .archiveStep,
         .commit ("Deferring XEP-0001")]) ∧
    ((deferModel (some "/repo") (.ok "M xep-0001.xml") "XEP-0001" "XEP-0001").1 ≠ [] ∧
     (deferModel (some "/repo") (.ok "M xep-0001.xml") "XEP-0001" "XEP-0001").2 =
       [.markDeferred, .renderHTML, .renderPDF, .archiveStep]) := by
  refine ⟨?_, ?_, ?_⟩
  · exact (defer_checks_clean_and_commits none (.ok "") "XEP-0001" "XEP-0001").1 rfl
  · have h := (defer_checks_clean_and_commits (some "/repo") (.ok "")
      "XEP-0001" "XEP-0001").2.2.2 "/repo" rfl rfl
    simpa using h
  · exact (defer_checks_clean_and_commits (some "/repo") (.ok "M xep-0001.xml")
      "XEP-0001" "XEP-0001").2.2.1 "/repo" "M xep-0001.xml" rfl rfl (by decide)

/-- Code point of a digit character. -/
theorem digitChar_toNat : ∀ a, a < 10 → (digitChar a).toNat = 48 + a := by decide

/-- One unfolding step of the decimal printer. -/
theorem natDecimalAux_succ (fuel n : Nat) (acc : List Char) :
    natDecimalAux (fuel + 1) n acc =
      if n = 0 then acc else natDecimalAux fuel (n / 10) (digitChar (n % 10) :: acc) := rfl

/-- Decimal digits of every number up to 9999, by magnitude. -/
theorem natDecimal_digits (n : Nat) (h : n ≤ 9999) :
    natDecimal n =
      if n < 10 then [digitChar n]
      else if n < 100 then [digitChar (n / 10), digitChar (n % 10)]
      else if n < 1000 then
        [digitChar (n / 100), digitChar (n / 10 % 10), digitChar (n % 10)]
      else
        [digitChar (n / 1000), digitChar (n / 100 % 10), digitChar (n / 10 % 10),
          digitChar (n % 10)] := by
  rcases Nat.lt_or_ge n 10 with h1 | h1
  · rw [if_pos h1]
    rcases Nat.eq_zero_or_pos n with h0 | h0
    · subst h0; decide
    · unfold natDecimal
      rw [if_neg (by omega)]
      rw [show (40 : Nat) = 39 + 1 from rfl, natDecimalAux_succ, if_neg (by omega)]
      rw [show n / 10 = 0 from by omega]
      rw [show (39 : Nat) = 38 + 1 from rfl, natDecimalAux_succ, if_pos rfl]
      rw [show n % 10 = n from by omega]
  · rcases Nat.lt_or_ge n 100 with h2 | h2
    · rw [if_neg (by omega), if_pos h2]
      unfold natDecimal
      rw [if_neg (by omega)]
      rw [show (40 : Nat) = 39 + 1 from rfl, natDecimalAux_succ, if_neg (by omega)]
      rw [show (39 : Nat) = 38 + 1 from rfl, natDecimalAux_succ, if_neg (by omega)]
      rw [show n / 10 / 10 = 0 from by omega]
      rw [show (38 : Nat) = 37 + 1 from rfl, natDecimalAux_succ, if_pos rfl]
      rw [show n / 10 % 10 = n / 10 from by omega]
    · rcases Nat.lt_or_ge n 1000 with h3 | h3
      · rw [if_neg (by omega), if_neg (by omega), if_pos h3]
        unfold natDecimal
        rw [if_neg (by omega)]
        rw [show (40 : Nat) = 39 + 1 from rfl, natDecimalAux_succ, if_neg (by omega)]
        rw [show (39 : Nat) = 38 + 1 from rfl, natDecimalAux_succ, if_neg (by omega)]
        rw [show (38 : Nat) = 37 + 1 from rfl, natDecimalAux_succ, if_neg (by omega)]
        rw [show n / 10 / 10 / 10 = 0 from by omega]
        rw [show (37 : Nat) = 36 + 1 from rfl, natDecimalAux_succ, if_pos rfl]
        rw [show n / 10 / 10 % 10 = n / 100 from by omega]
      · rw [if_neg (by omega), if_neg (by omega), if_neg (by omega)]
        unfold natDecimal
        rw [if_neg (by omega)]
        rw [show (40 : Nat) = 39 + 1 from rfl, natDecimalAux_succ, if_neg (by omega)]
        rw [show (39 : Nat) = 38 + 1 from rfl, natDecimalAux_succ, if_neg (by omega)]
        rw [show (38 : Nat) = 37 + 1 from rfl, natDecimalAux_succ, if_neg (by omega)]
        rw [show (37 : Nat) = 36 + 1 from rfl, natDecimalAux_succ, if_neg (by omega)]
        rw [show n / 10 / 10 / 10 / 10 = 0 from by omega]
        rw [show (36 : Nat) = 35 + 1 from rfl, natDecimalAux_succ, if_pos rfl]
        rw [show n / 10 / 10 / 10 % 10 = n / 1000 from by omega]
        rw [show n / 10 / 10 % 10 = n / 100 % 10 from by omega]



/-- The zero-padded four character form of every number up to 9999. -/
theorem pad4_data (n : Nat) (h : n ≤ 9999) :
    (zfill4 ⟨natDecimal n⟩).data =
      [digitChar (n / 1000), digitChar (n / 100 % 10), digitChar (n / 10 % 10),
        digitChar (n % 10)] := by
  rw [show (zfill4 ⟨natDecimal n⟩).data =
    List.replicate (4 - (natDecimal n).length) '0' ++ natDecimal n from rfl]
  rw [natDecimal_digits n h]
  rcases Nat.lt_or_ge n 10 with h1 | h1
  · rw [if_pos h1]
    rw [show n / 1000 = 0 from by omega, show n / 100 % 10 = 0 from by omega,
        show n / 10 % 10 = 0 from by omega, show n % 10 = n from by omega]
    rfl
  · rcases Nat.lt_or_ge n 100 with h2 | h2
    · rw [if_neg (by omega), if_pos h2]
      rw [show n / 1000 = 0 from by omega, show n / 100 % 10 = 0 from by omega,
          show n / 10 % 10 = n / 10 from by omega]
      rfl
    · rcases Nat.lt_or_ge n 1000 with h3 | h3
      · rw [if_neg (by omega), if_neg (by omega), if_pos h3]
        rw [show n / 1000 = 0 from by omega, show n / 100 % 10 = n / 100 from by omega]
        rfl
      · rw [if_neg (by omega), if_neg (by omega), if_neg (by omega)]
        rfl

/-- Lexicographic comparison ignores a shared prefix. -/
theorem listLt_append_same (p s t : List Char) :
    listLt (p ++ s) (p ++ t) = listLt s t := by
  induction p with
  | nil => rfl
  | cons c cs ih =>
    simp [listLt, Nat.lt_irrefl, ih]

/-- On four digit characters, lexicographic order is numeric order of
the four digit value. -/
theorem listLt_four (a3 a2 a1 a0 b3 b2 b1 b0 : Nat)
    (ha3 : a3 < 10) (ha2 : a2 < 10) (ha1 : a1 < 10) (ha0 : a0 < 10)
    (hb3 : b3 < 10) (hb2 : b2 < 10) (hb1 : b1 < 10) (hb0 : b0 < 10) :
    (listLt [digitChar a3, digitChar a2, digitChar a1, digitChar a0]
        [digitChar b3, digitChar b2, digitChar b1, digitChar b0] = true ↔
      a3 * 1000 + a2 * 100 + a1 * 10 + a0 < b3 * 1000 + b2 * 100 + b1 * 10 + b0) := by
  simp only [listLt, digitChar_toNat a3 ha3, digitChar_toNat a2 ha2,
    digitChar_toNat a1 ha1, digitChar_toNat a0 ha0, digitChar_toNat b3 hb3,
    digitChar_toNat b2 hb2, digitChar_toNat b1 hb1, digitChar_toNat b0 hb0]
  split_ifs <;> simp_all <;> omega



/-- C9: for any two records whose numbers are integers in 0..9999 with
nrFormatted derived by the code's formatting rule, the record less-than
(lexicographic comparison of the XEP-prefixed zero-padded display strings)
agrees exactly with numeric order of the numbers. -/
theorem xepLt_orders_by_number (r1 r2 : XEPState) (a b : Int)
    (h1 : r1.xrec.nr = .int a) (h2 : r2.xrec.nr = .int b)
    (hf1 : r1.xrec.nrFormatted = fmtNr r1.xrec.nr)
    (hf2 : r2.xrec.nrFormatted = fmtNr r2.xrec.nr)
    (ha0 : 0 ≤ a) (ha9 : a ≤ 9999) (hb0 : 0 ≤ b) (hb9 : b ≤ 9999) :
    (xepLt r1 r2 = true ↔ a < b) := by
  rw [h1] at hf1
  rw [h2] at hf2
  have hma : a.toNat ≤ 9999 := by omega
  have hmb : b.toNat ≤ 9999 := by omega
  have hfa : fmtNr (.int a) = zfill4 ⟨natDecimal a.toNat⟩ := by
    unfold fmtNr intDecimal
    simp only []
    rw [if_neg (by omega)]
  have hfb : fmtNr (.int b) = zfill4 ⟨natDecimal b.toNat⟩ := by
    unfold fmtNr intDecimal
    simp only []
    rw [if_neg (by omega)]
  have hne : ∀ m : Nat, m ≤ 9999 → zfill4 ⟨natDecimal m⟩ ≠ "" := by
    intro m hm he
    have hd := congrArg String.data he
    rw [pad4_data m hm] at hd
    exact List.noConfusion hd
  unfold xepLt pyStrLt xepStr strForm
  rw [hf1, hf2, hfa, hfb]
  rw [if_neg (hne a.toNat hma), if_neg (hne b.toNat hmb)]
  rw [String.data_append, String.data_append, listLt_append_same]
  rw [pad4_data a.toNat hma, pad4_data b.toNat hmb]
  rw [listLt_four _ _ _ _ _ _ _ _ (by omega) (by omega) (by omega) (by omega)
    (by omega) (by omega) (by omega) (by omega)]
  omega

/-- C9 witness: XEP-0002 sorts before XEP-0030. -/
theorem xepLt_orders_by_number_witness :
    (xepLt { st0 with xrec := { recInterim with nr := .int 2, nrFormatted := fmtNr (.int 2) } }
      { st0 with xrec := { recInterim with nr := .int 30, nrFormatted := fmtNr (.int 30) } } = true) ∧
    ((2 : Int) < 30) := by
  constructor
  · exact (xepLt_orders_by_number _ _ 2 30 rfl rfl rfl rfl (by decide) (by decide)
      (by decide) (by decide)).mpr (by decide)
  · decide

end XepUtils
